import Mathlib

/-!
# The main window controller of the launcher (`mainwindow.cpp`)

A shallow embedding of `MainWindow`: the window is a record of the members and
of the widget state the methods read and write, every method is a function on
that record, and everything a method sends outside the window (signals,
calls on the history object, on the proposal model, on the application) is
appended to a trace.

The toolkit is modelled as far as the methods use it:

* `QObject::installEventFilter` / `removeEventFilter`: the filter chain of the
  input line is kept in installation order (oldest first); installing an object
  that is already in the chain moves it to the end. The toolkit offers an event
  to the filters from the last installed to the first.
* `QLineEdit::setText` / `clear`: `textChanged` is emitted only when the text
  really changes; `textEdited` is not emitted by either.
* `QWidget::close`: sends the close event and hides the widget when the event
  was accepted.
-/

namespace Albert

/-! ## Toolkit constants -/

namespace Qt

/-- Value of `Qt::NoModifier`. -/
def NoModifier : Nat := 0x00000000
/-- Value of `Qt::ShiftModifier`. -/
def ShiftModifier : Nat := 0x02000000
/-- Value of `Qt::ControlModifier`. -/
def ControlModifier : Nat := 0x04000000
/-- Value of `Qt::AltModifier`. -/
def AltModifier : Nat := 0x08000000
/-- Value of `Qt::MetaModifier`. -/
def MetaModifier : Nat := 0x10000000

/-- Value of `Qt::Key_Tab`. -/
def Key_Tab : Nat := 0x01000001
/-- Value of `Qt::Key_Up`. -/
def Key_Up : Nat := 0x01000013
/-- Value of `Qt::Key_Down`. -/
def Key_Down : Nat := 0x01000015

/-- Value of `Qt::UserRole`. -/
def UserRole : Nat := 0x0100

end Qt

/-! ## Persisted settings -/

/-- A point of the desktop, as `QPoint`. -/
structure QPoint where
  x : Int
  y : Int
  deriving DecidableEq, Repr

/-- The values a `QVariant` read from the settings can hold. -/
inductive QVariant where
  | bool (b : Bool)
  | int (n : Int)
  | string (s : String)
  | point (p : QPoint)
  deriving DecidableEq, Repr

namespace QVariant

/-- The conversion `QVariant::toBool`: a boolean is itself, a number is true when it is not
zero, a string is true unless it is empty, `0` or `false` (in any letter case); nothing else
converts. -/
def toBool : QVariant → Bool
  | .bool b => b
  | .int n => n != 0
  | .string s => !(s.toLower = "" || s.toLower = "0" || s.toLower = "false")
  | .point _ => false

/-- The conversion `QVariant::toInt` (a string that is no number gives 0). -/
def toInt : QVariant → Int
  | .bool b => if b then 1 else 0
  | .int n => n
  | .string s => s.toInt?.getD 0
  | .point _ => 0

/-- The conversion `QVariant::toString` (a point has no string form). -/
def toQString : QVariant → String
  | .bool b => if b then "true" else "false"
  | .int n => toString n
  | .string s => s
  | .point _ => ""

/-- The test `QVariant::canConvert(QMetaType::QPoint)`: only a point converts to a point. -/
def canConvertQPoint : QVariant → Bool
  | .point _ => true
  | _ => false

/-- The conversion `QVariant::toPoint` (the null point when the value is no point). -/
def toPoint : QVariant → QPoint
  | .point p => p
  | _ => ⟨0, 0⟩

end QVariant

/-- The persisted settings of the application, `QSettings(qApp->applicationName())`: named
values, at most one per key being looked at (the first entry of a key counts). -/
abbrev QSettings := List (String × QVariant)

namespace QSettings

/-- The lookup `QSettings::contains`. -/
def contains (s : QSettings) (key : String) : Bool :=
  (s.lookup key).isSome

/-- The lookup `QSettings::value(key, defaultValue)`. -/
def value (s : QSettings) (key : String) (dflt : QVariant) : QVariant :=
  (s.lookup key).getD dflt

/-- The update `QSettings::setValue`: the key's old entries go, the new one is stored. -/
def setValue (s : QSettings) (key : String) (v : QVariant) : QSettings :=
  (key, v) :: s.filter (fun kv => kv.1 != key)

end QSettings

/-! Names and defaults of the settings, from the anonymous namespace of the file. -/

def CFG_WND_POS : String := "windowPosition"
def CFG_CENTERED : String := "showCentered"
def DEF_CENTERED : Bool := true
def CFG_THEME : String := "theme"
def DEF_THEME : String := "Bright"
def CFG_HIDE_ON_FOCUS_LOSS : String := "hideOnFocusLoss"
def DEF_HIDE_ON_FOCUS_LOSS : Bool := true
def CFG_HIDE_ON_CLOSE : String := "hideOnClose"
def DEF_HIDE_ON_CLOSE : Bool := false
def CFG_CLEAR_ON_HIDE : String := "clearOnHide"
def DEF_CLEAR_ON_HIDE : Bool := false
def CFG_ALWAYS_ON_TOP : String := "alwaysOnTop"
def DEF_ALWAYS_ON_TOP : Bool := true
def CFG_MAX_PROPOSALS : String := "itemCount"
def DEF_MAX_PROPOSALS : Nat := 5
def CFG_DISPLAY_SCROLLBAR : String := "displayScrollbar"
def DEF_DISPLAY_SCROLLBAR : Bool := false
def CFG_DISPLAY_ICONS : String := "displayIcons"
def DEF_DISPLAY_ICONS : Bool := true
def CFG_DISPLAY_SHADOW : String := "displayShadow"
def DEF_DISPLAY_SHADOW : Bool := true

/-! ## The window -/

/-- The operations of the history object `history_`. The class `History` is a collaborator
of the window whose source is not part of this file, so the window is verified for every
history: `next` and `prev` move the cursor and return the line found there (the empty string
when there is none), `add` stores a line, `resetIterator` puts the cursor back. -/
structure HistoryOps (H : Type) where
  add : String → H → H
  next : H → String × H
  prev : H → String × H
  resetIterator : H → H

/-- What the window sends outside itself, in the order it is sent: the signals it emits, the
calls on the history object, on the proposal model and on the application object. -/
inductive Effect where
  | widgetShown
  | widgetHidden
  | inputChanged (text : String)
  | historyAdd (text : String)
  | historyNext
  | historyPrev
  | historyResetIterator
  | setData (row : Option Nat) (value : Int) (role : Nat)
  | raise
  | activateWindow
  | inputSetFocus
  | quit
  | fatal (message : String)
  deriving DecidableEq, Repr

/-- The objects that get installed as event filters of the input line. -/
inductive FilterObject where
  | proposalList
  | actionList
  | mainWindow
  deriving DecidableEq, Repr

/-- A style file found in a theme directory: `readable` says whether `QFile::open` for
reading succeeds on it. -/
structure ThemeFile where
  baseName : String
  readable : Bool
  contents : String
  deriving DecidableEq, Repr

/-- The window: its members (named as in the class), the state of its widgets, what it reads
from its surroundings, and the trace of what it has sent out. -/
structure MainWindow (H : Type) where
  /-- Member `actionsShown_`. -/
  actionsShown_ : Bool
  /-- Member `showCentered_`. -/
  showCentered_ : Bool
  /-- Member `hideOnFocusLoss_`. -/
  hideOnFocusLoss_ : Bool
  /-- Member `hideOnClose_`. -/
  hideOnClose_ : Bool
  /-- Member `clearOnHide_`. -/
  clearOnHide_ : Bool
  /-- Member `displayShadow_`. -/
  displayShadow_ : Bool
  /-- Member `theme_`. -/
  theme_ : String
  /-- Member `history_`: the state of the history object. -/
  history_ : H
  /-- Member `actionsListModel_`: the strings of the model of the action list. -/
  actionsListModel_ : List String
  /-- Member `clickOffset_`. -/
  clickOffset_ : QPoint
  /-- Widget state `isVisible()` of the window. -/
  visible : Bool
  /-- Widget state `pos()` of the window. -/
  pos : QPoint
  /-- Widget state `styleSheet()` of the window. -/
  styleSheet : String
  /-- Window flag `Qt::WindowStaysOnTopHint`. -/
  staysOnTopHint : Bool
  /-- Text of `ui.inputLine`. -/
  inputText : String
  /-- Whether the whole text of `ui.inputLine` is selected. -/
  inputAllSelected : Bool
  /-- Event filters of `ui.inputLine`, in installation order. -/
  inputFilters : List FilterObject
  /-- Whether `ui.proposalList` is shown. -/
  proposalListVisible : Bool
  /-- Whether `ui.actionList` is shown. -/
  actionListVisible : Bool
  /-- Current row of `ui.actionList`. -/
  actionListCurrent : Option Nat
  /-- Property `maxItems` of `ui.proposalList`. -/
  maxItems : Nat
  /-- Property `displayIcons` of `ui.proposalList`. -/
  proposalListIcons : Bool
  /-- Whether the scroll bar policy of `ui.proposalList` is as-needed (not always-off). -/
  proposalListScrollbar : Bool
  /-- Read from the proposal model: for each row the strings under `Qt::UserRole`. -/
  proposals : List (List String)
  /-- Read from `ui.proposalList`: the row of `currentIndex()`, `none` when it is invalid. -/
  currentIndex : Option Nat
  /-- The persisted settings. -/
  settings : QSettings
  /-- The style files in the theme directories, in the order they are listed. -/
  themes : List ThemeFile
  /-- Read from the desktop: the centre of the available geometry of the screen under the
  pointer. -/
  screenCenter : QPoint
  /-- Read from the widget: `rect().right()`. -/
  rectRight : Int
  /-- Everything sent out so far, oldest first. -/
  trace : List Effect

variable {H : Type}

namespace MainWindow

/-- Append one effect to the trace. -/
def emit (s : MainWindow H) (e : Effect) : MainWindow H :=
  { s with trace := s.trace ++ [e] }

/-- The call `ui.inputLine->installEventFilter(obj)`: the object becomes the last installed
filter (an object installed before is moved, not doubled). -/
def installEventFilter (s : MainWindow H) (obj : FilterObject) : MainWindow H :=
  { s with inputFilters := s.inputFilters.filter (fun o => o != obj) ++ [obj] }

/-- The call `ui.inputLine->removeEventFilter(obj)`. -/
def removeEventFilter (s : MainWindow H) (obj : FilterObject) : MainWindow H :=
  { s with inputFilters := s.inputFilters.filter (fun o => o != obj) }

/-- Getter `MainWindow::actionsAreShown`. -/
def actionsAreShown (s : MainWindow H) : Bool :=
  s.actionsShown_

/-- The second block of `MainWindow::setShowActions`: hide the actions. -/
def setShowActions_hide (s : MainWindow H) (showActions : Bool) : MainWindow H :=
  if !showActions && s.actionsShown_ then
    let s := { s with actionListVisible := false }
    -- Change event filter pipeline: window -> _proposal_list -> lineedit
    let s := s.removeEventFilter .mainWindow
    let s := s.removeEventFilter .actionList
    let s := s.installEventFilter .proposalList
    let s := s.installEventFilter .mainWindow
    -- Finally set the state
    { s with actionsShown_ := false }
  else s

/-- Method `MainWindow::setShowActions`. The two `return`s of the first block leave the method
before the second block is looked at. -/
def setShowActions (s : MainWindow H) (showActions : Bool) : MainWindow H :=
  if showActions && !s.actionsShown_ then
    match s.currentIndex with
    | none => s -- Skip if nothing selected
    | some row =>
      -- Get actions
      let s := { s with actionsListModel_ := s.proposals.getD row [] }
      -- Skip if actions are empty
      if s.actionsListModel_.length < 1 then s
      else
        let s := { s with actionListCurrent := some 0 }
        let s := { s with actionListVisible := true }
        -- Change event filter pipeline: window -> _action_list -> lineedit
        let s := s.removeEventFilter .mainWindow
        let s := s.removeEventFilter .proposalList
        let s := s.installEventFilter .actionList
        let s := s.installEventFilter .mainWindow
        -- Finally set the state
        let s := { s with actionsShown_ := true }
        s.setShowActions_hide showActions
  else s.setShowActions_hide showActions

/-- Modelled from the spec: the slot `MainWindow::hideActions`, whose body is in the header of
the class and not in this file. It is connected to `textChanged` of the input line and to
`pressed` of the proposal list ("Hide the actionview, if text was changed"); it is the
request for the transition from the actions back to the proposals. -/
def hideActions (s : MainWindow H) : MainWindow H :=
  s.setShowActions false

/-- What the connections of `ui.inputLine`'s `textChanged` do, in connection order: the
signal `inputChanged` is emitted, then `hideActions` runs. -/
def textChanged (s : MainWindow H) : MainWindow H :=
  (s.emit (.inputChanged s.inputText)).hideActions

/-- The call `ui.inputLine->setText(text)`: the selection goes, and `textChanged` is emitted
when the text is a different one. -/
def inputLine_setText (s : MainWindow H) (text : String) : MainWindow H :=
  if s.inputText = text then { s with inputAllSelected := false }
  else ({ s with inputText := text, inputAllSelected := false }).textChanged

/-- The call `ui.inputLine->clear()`. -/
def inputLine_clear (s : MainWindow H) : MainWindow H :=
  s.inputLine_setText ""

/-- The call `ui.inputLine->selectAll()`. -/
def inputLine_selectAll (s : MainWindow H) : MainWindow H :=
  { s with inputAllSelected := true }

/-! ### The history object -/

/-- The call `history_->resetIterator()`. -/
def history_resetIterator (ops : HistoryOps H) (s : MainWindow H) : MainWindow H :=
  ({ s with history_ := ops.resetIterator s.history_ }).emit .historyResetIterator

/-- The call `history_->add(text)`. -/
def history_add (ops : HistoryOps H) (s : MainWindow H) (text : String) : MainWindow H :=
  ({ s with history_ := ops.add text s.history_ }).emit (.historyAdd text)

/-- The call `history_->next()`, with the line it returns. -/
def history_next (ops : HistoryOps H) (s : MainWindow H) : String × MainWindow H :=
  ((ops.next s.history_).1, ({ s with history_ := (ops.next s.history_).2 }).emit .historyNext)

/-- The call `history_->prev()`, with the line it returns. -/
def history_prev (ops : HistoryOps H) (s : MainWindow H) : String × MainWindow H :=
  ((ops.prev s.history_).1, ({ s with history_ := (ops.prev s.history_).2 }).emit .historyPrev)

/-! ### Visibility -/

/-- The call `QWidget::move`. -/
def move (s : MainWindow H) (p : QPoint) : MainWindow H :=
  { s with pos := p }

/-- The point the window is moved to when it is shown centred:
`availableGeometry(screen under the pointer).center() - QPoint(rect().right()/2, 192)`. -/
def centeredPos (s : MainWindow H) : QPoint :=
  ⟨s.screenCenter.x - Int.tdiv s.rectRight 2, s.screenCenter.y - 192⟩

/-- Method `MainWindow::setVisible`. -/
def setVisible (ops : HistoryOps H) (s : MainWindow H) (visible : Bool) : MainWindow H :=
  -- Skip if nothing to do
  if (s.visible && visible) || !(s.visible || visible) then s
  else
    -- QWidget::setVisible(visible)
    let s := { s with visible := visible }
    if visible then
      let s := if s.showCentered_ then s.move s.centeredPos else s
      let s := s.emit .raise
      let s := s.emit .activateWindow
      let s := s.emit .inputSetFocus
      s.emit .widgetShown
    else
      let s := s.setShowActions false
      let s := s.history_resetIterator ops
      let s := if s.clearOnHide_ then s.inputLine_clear else s.inputLine_selectAll
      s.emit .widgetHidden

/-- Method `MainWindow::toggleVisibility`. -/
def toggleVisibility (ops : HistoryOps H) (s : MainWindow H) : MainWindow H :=
  s.setVisible ops (!s.visible)

/-- Method `MainWindow::setInput`. -/
def setInput (s : MainWindow H) (input : String) : MainWindow H :=
  s.inputLine_setText input

/-! ### Settings -/

/-- Method `MainWindow::setShowCentered`. -/
def setShowCentered (s : MainWindow H) (b : Bool) : MainWindow H :=
  { s with settings := s.settings.setValue CFG_CENTERED (.bool b), showCentered_ := b }

/-- Getter `MainWindow::showCentered`. -/
def showCentered (s : MainWindow H) : Bool :=
  s.showCentered_

/-- Getter `MainWindow::theme`. -/
def theme (s : MainWindow H) : String :=
  s.theme_

/-- The loop of `MainWindow::setTheme` over the style files found: the first file whose base
name is `theme_` and which opens for reading is applied and persisted. -/
def setTheme_find (s : MainWindow H) : List ThemeFile → MainWindow H × Bool
  | [] => (s, false)
  | fi :: rest =>
    if fi.baseName = s.theme_ then
      if fi.readable then
        let s := { s with settings := s.settings.setValue CFG_THEME (.string s.theme_) }
        let s := { s with styleSheet := fi.contents }
        (s, true)
      else s.setTheme_find rest
    else s.setTheme_find rest

/-- Method `MainWindow::setTheme`, with the `success` it returns. -/
def setTheme (s : MainWindow H) (theme : String) : MainWindow H × Bool :=
  let s := { s with theme_ := theme }
  s.setTheme_find s.themes

/-- Method `MainWindow::setHideOnFocusLoss`. -/
def setHideOnFocusLoss (s : MainWindow H) (b : Bool) : MainWindow H :=
  { s with settings := s.settings.setValue CFG_HIDE_ON_FOCUS_LOSS (.bool b),
           hideOnFocusLoss_ := b }

/-- Method `MainWindow::setHideOnClose`. -/
def setHideOnClose (s : MainWindow H) (b : Bool) : MainWindow H :=
  { s with settings := s.settings.setValue CFG_HIDE_ON_CLOSE (.bool b), hideOnClose_ := b }

/-- Method `MainWindow::setClearOnHide`. -/
def setClearOnHide (s : MainWindow H) (b : Bool) : MainWindow H :=
  { s with settings := s.settings.setValue CFG_CLEAR_ON_HIDE (.bool b), clearOnHide_ := b }

/-- Method `MainWindow::setAlwaysOnTop`. -/
def setAlwaysOnTop (s : MainWindow H) (alwaysOnTop : Bool) : MainWindow H :=
  { s with settings := s.settings.setValue CFG_ALWAYS_ON_TOP (.bool alwaysOnTop),
           staysOnTopHint := alwaysOnTop }

/-- Method `MainWindow::setMaxProposals`; the argument is a `uint8_t`. -/
def setMaxProposals (s : MainWindow H) (maxItems : Nat) : MainWindow H :=
  { s with settings := s.settings.setValue CFG_MAX_PROPOSALS (.int (maxItems % 256 : Nat)),
           maxItems := maxItems % 256 }

/-- Method `MainWindow::setDisplayIcons`. -/
def setDisplayIcons (s : MainWindow H) (value : Bool) : MainWindow H :=
  { s with settings := s.settings.setValue CFG_DISPLAY_ICONS (.bool value),
           proposalListIcons := value }

/-- Method `MainWindow::setDisplayScrollbar`. -/
def setDisplayScrollbar (s : MainWindow H) (value : Bool) : MainWindow H :=
  { s with settings := s.settings.setValue CFG_DISPLAY_SCROLLBAR (.bool value),
           proposalListScrollbar := value }

/-- Method `MainWindow::setDisplayShadow` (the painting of the shadow is left out). -/
def setDisplayShadow (s : MainWindow H) (value : Bool) : MainWindow H :=
  { s with settings := s.settings.setValue CFG_DISPLAY_SHADOW (.bool value),
           displayShadow_ := value }

/-! ### Activation of a list item -/

/-- The role the handler of `ProposalList::activated` writes on the proposal model, chosen by
the `switch` on `qApp->queryKeyboardModifiers()`. -/
def activatedRole (modifiers : Nat) : Nat :=
  if modifiers = Qt.AltModifier then Qt.UserRole + 101 -- AltAction
  else if modifiers = Qt.MetaModifier then Qt.UserRole + 102 -- MetaAction
  else if modifiers = Qt.ControlModifier then Qt.UserRole + 103 -- ControlAction
  else if modifiers = Qt.ShiftModifier then Qt.UserRole + 104 -- ShiftAction
  else Qt.UserRole + 100 -- DefaultAction

/-- The handler connected to `ProposalList::activated`; `index` is the activated row and
`modifiers` what `qApp->queryKeyboardModifiers()` returns. -/
def proposalList_activated (ops : HistoryOps H) (s : MainWindow H) (index : Option Nat)
    (modifiers : Nat) : MainWindow H :=
  let s := s.emit (.setData index (-1) (activatedRole modifiers))
  -- Do not move this up! (Invalidates index)
  let s := s.history_add ops s.inputText
  let s := s.setVisible ops false
  s.inputLine_clear

/-- The handler connected to `ActionList::activated`; `row` is `index.row()`. -/
def actionList_activated (ops : HistoryOps H) (s : MainWindow H) (row : Int) : MainWindow H :=
  let s := s.history_add ops s.inputText
  let s := s.emit (.setData s.currentIndex row Qt.UserRole)
  s.setVisible ops false

/-! ### Events -/

/-- Method `MainWindow::closeEvent`, with the accepted flag of the event afterwards. -/
def closeEvent (s : MainWindow H) : MainWindow H × Bool :=
  -- event->accept()
  let accepted := true
  let s := if !s.hideOnClose_ then s.emit .quit else s
  (s, accepted)

/-- The toolkit's `QWidget::close` on the window: the close event is sent, and when it comes
back accepted a window that is not hidden is hidden (through the overridden `setVisible`).
Returns whether the window was closed. -/
def close (ops : HistoryOps H) (s : MainWindow H) : MainWindow H × Bool :=
  let r := s.closeEvent
  if !r.2 then (r.1, false)
  else if r.1.visible then (r.1.setVisible ops false, true)
  else (r.1, true)

end MainWindow

/-- The events the filter of the window tells apart: a key press with `key()`, `modifiers()`
and `isAutoRepeat()`, a wheel event with `angleDelta().y()`, and every other event. -/
inductive QEvent where
  | keyPress (key : Nat) (modifiers : Nat) (isAutoRepeat : Bool)
  | wheel (angleDeltaY : Int)
  | other
  deriving DecidableEq, Repr

namespace MainWindow

/-- Member `historyMoveMod_`: set to `Qt::ControlModifier` by the constructor's initialiser
list and written nowhere else. -/
def historyMoveMod_ : Nat := Qt.ControlModifier

/-- The row `currentIndex().row()` of the proposal list: `-1` for an invalid index. -/
def currentRow (s : MainWindow H) : Int :=
  match s.currentIndex with
  | some r => r
  | none => -1

/-- The wheel block at the end of `MainWindow::eventFilter` and its final `return false`. -/
def eventFilter_tail (ops : HistoryOps H) (s : MainWindow H) (event : QEvent) :
    MainWindow H × Bool :=
  match event with
  | .wheel angleDeltaY =>
    if angleDeltaY > 0 then
      let r := s.history_next ops
      let s := if r.1 ≠ "" then r.2.inputLine_setText r.1 else r.2
      (s, false)
    else
      let r := s.history_prev ops
      let s := if r.1 ≠ "" then r.2.inputLine_setText r.1 else r.2
      (s, false)
  | _ => (s, false)

/-- The `case Qt::Key_Down` of the `switch` in `MainWindow::eventFilter`, which is also where
`case Qt::Key_Up` falls through to. -/
def eventFilter_keyDown (ops : HistoryOps H) (s : MainWindow H) (event : QEvent)
    (modifiers : Nat) : MainWindow H × Bool :=
  if !s.actionsAreShown && modifiers = Qt.ControlModifier then
    let r := s.history_prev ops
    let s := if r.1 ≠ "" then r.2.inputLine_setText r.1 else r.2
    (s, true)
  else s.eventFilter_tail ops event

/-- Method `MainWindow::eventFilter`, with the boolean it returns (true: the event is
consumed). -/
def eventFilter (ops : HistoryOps H) (s : MainWindow H) (event : QEvent) :
    MainWindow H × Bool :=
  match event with
  | .keyPress key modifiers isAutoRepeat =>
    if key = Qt.Key_Tab then
      -- Toggle actionsview
      (s.setShowActions (!s.actionsAreShown), true)
    else if key = Qt.Key_Up then
      -- Move up in the history
      if s.currentIndex.isNone -- Empty list
          || modifiers = historyMoveMod_ -- MoveMod (Ctrl) hold
          || (!s.actionsAreShown -- Not in actions state...
              && s.currentRow = 0 && !isAutoRepeat) then -- ... and first row (non repeat)
        let r := s.history_next ops
        let s := if r.1 ≠ "" then r.2.inputLine_setText r.1 else r.2
        (s, true)
      else s.eventFilter_keyDown ops event modifiers
    else if key = Qt.Key_Down then
      -- Move down in the history
      s.eventFilter_keyDown ops event modifiers
    else s.eventFilter_tail ops event
  | _ => s.eventFilter_tail ops event

/-- A text edit by the user in the input line: `textEdited` (connected to
`History::resetIterator`) and `textChanged` are emitted when the text is a different one. -/
def inputLine_userEdit (ops : HistoryOps H) (s : MainWindow H) (text : String) :
    MainWindow H :=
  if s.inputText = text then s
  else (({ s with inputText := text, inputAllSelected := false }).history_resetIterator
    ops).textChanged

end MainWindow

/-! ## Construction -/

/-- What the constructor finds around it: the persisted settings, the style files of the theme
directories, the freshly made history object, the position the toolkit gives the new window,
and the geometry read when the window is centred. -/
structure Surroundings (H : Type) where
  settings : QSettings
  themes : List ThemeFile
  history : H
  pos : QPoint
  screenCenter : QPoint
  rectRight : Int

namespace MainWindow

/-- The window before the body of the constructor runs: `actionsShown_(false)` from the
initialiser list, widgets as the toolkit makes them (the window itself not yet shown, the
child lists not hidden, empty input line, no filters, no proposal model). -/
def fresh (env : Surroundings H) : MainWindow H where
  actionsShown_ := false
  showCentered_ := false
  hideOnFocusLoss_ := false
  hideOnClose_ := false
  clearOnHide_ := false
  displayShadow_ := false
  theme_ := ""
  history_ := env.history
  actionsListModel_ := []
  clickOffset_ := ⟨0, 0⟩
  visible := false
  pos := env.pos
  styleSheet := ""
  staysOnTopHint := false
  inputText := ""
  inputAllSelected := false
  inputFilters := []
  proposalListVisible := true
  actionListVisible := true
  actionListCurrent := none
  maxItems := 0
  proposalListIcons := false
  proposalListScrollbar := false
  proposals := []
  currentIndex := none
  settings := env.settings
  themes := env.themes
  screenCenter := env.screenCenter
  rectRight := env.rectRight
  trace := []

/-- The first part of the constructor ("INITIALIZE UI"): the initial filter chain of the
input line, and both lists hidden. -/
def construct_ui (env : Surroundings H) : MainWindow H :=
  let s : MainWindow H := fresh env
  -- Set initial event filter pipeline: window -> proposallist -> lineedit
  let s := s.installEventFilter .proposalList
  let s := s.installEventFilter .mainWindow
  -- Hide lists
  let s := { s with actionListVisible := false }
  { s with proposalListVisible := false }

/-- The second part of the constructor ("Settings"), up to the theme: every option is read
from the persisted settings and handed to its setter. -/
def construct_settings (s : MainWindow H) : MainWindow H :=
  let s := s.setShowCentered (s.settings.value CFG_CENTERED (.bool DEF_CENTERED)).toBool
  let s :=
    -- (the default of `value` is not reached here: the key is contained)
    if !s.showCentered && s.settings.contains CFG_WND_POS
        && (s.settings.value CFG_WND_POS (.bool false)).canConvertQPoint then
      s.move (s.settings.value CFG_WND_POS (.bool false)).toPoint
    else s
  let s := s.setHideOnFocusLoss
    (s.settings.value CFG_HIDE_ON_FOCUS_LOSS (.bool DEF_HIDE_ON_FOCUS_LOSS)).toBool
  let s := s.setHideOnClose (s.settings.value CFG_HIDE_ON_CLOSE (.bool DEF_HIDE_ON_CLOSE)).toBool
  let s := s.setClearOnHide (s.settings.value CFG_CLEAR_ON_HIDE (.bool DEF_CLEAR_ON_HIDE)).toBool
  let s := s.setAlwaysOnTop (s.settings.value CFG_ALWAYS_ON_TOP (.bool DEF_ALWAYS_ON_TOP)).toBool
  let s := s.setMaxProposals
    ((s.settings.value CFG_MAX_PROPOSALS (.int DEF_MAX_PROPOSALS)).toInt % 256).toNat
  let s := s.setDisplayScrollbar
    (s.settings.value CFG_DISPLAY_SCROLLBAR (.bool DEF_DISPLAY_SCROLLBAR)).toBool
  let s := s.setDisplayIcons (s.settings.value CFG_DISPLAY_ICONS (.bool DEF_DISPLAY_ICONS)).toBool
  s.setDisplayShadow (s.settings.value CFG_DISPLAY_SHADOW (.bool DEF_DISPLAY_SHADOW)).toBool

/-- Constructor `MainWindow::MainWindow`. It fails (`qFatal`) when the persisted theme cannot
be applied. -/
def construct (env : Surroundings H) : Except String (MainWindow H) :=
  let s : MainWindow H := construct_settings (construct_ui env)
  let s := { s with theme_ := (s.settings.value CFG_THEME (.string DEF_THEME)).toQString }
  let r := s.setTheme s.theme_
  if !r.2 then .error ("FATAL: Stylefile not found: " ++ r.1.theme_)
  else .ok r.1

end MainWindow

/-! ## Runs of the window -/

/-- What can happen to a constructed window: a call of one of its methods, an event reaching
its filter, an activation of a list item, a close request, an edit of the input text by the
user, and a change of the proposals or of the current row made by the proposal list. -/
inductive Op where
  | setShowActions (showActions : Bool)
  | setVisible (visible : Bool)
  | eventFilter (event : QEvent)
  | proposalActivated (index : Option Nat) (modifiers : Nat)
  | actionActivated (row : Int)
  | close
  | userEdit (text : String)
  | proposalsChanged (proposals : List (List String)) (currentIndex : Option Nat)
  deriving DecidableEq, Repr

namespace MainWindow

/-- The window after one operation. -/
def step (ops : HistoryOps H) (s : MainWindow H) : Op → MainWindow H
  | .setShowActions b => s.setShowActions b
  | .setVisible b => s.setVisible ops b
  | .eventFilter e => (s.eventFilter ops e).1
  | .proposalActivated index modifiers => s.proposalList_activated ops index modifiers
  | .actionActivated row => s.actionList_activated ops row
  | .close => (s.close ops).1
  | .userEdit text => s.inputLine_userEdit ops text
  | .proposalsChanged proposals currentIndex =>
    { s with proposals := proposals, currentIndex := currentIndex }

/-- The window after a sequence of operations. -/
def run (ops : HistoryOps H) (s : MainWindow H) (l : List Op) : MainWindow H :=
  l.foldl (step ops) s

/-- The states a window can be in: constructed in some surroundings, then any sequence of
operations. -/
def Reachable (ops : HistoryOps H) (s : MainWindow H) : Prop :=
  ∃ (env : Surroundings H) (s₀ : MainWindow H) (l : List Op),
    construct env = .ok s₀ ∧ s = run ops s₀ l

/-- The effects a call added to the trace: what is in the trace after it beyond the length
of the trace before it. -/
def sent (before after : MainWindow H) : List Effect :=
  after.trace.drop before.trace.length

end MainWindow

/-! ## A concrete history and concrete windows

Used to run the definitions on explicit inputs. -/

/-- Modelled from the spec: the history store (class `History`, not part of this file) as
"a pointer into a persisted ordered sequence of past input strings", here the lines from
oldest to newest and the number of steps the cursor is away from "past the end". -/
structure History where
  lines : List String
  cursor : Nat
  deriving DecidableEq, Repr

namespace History

/-- Modelled from the spec: `add(text)`, `next() -> text-or-empty` (towards older lines),
`prev() -> text-or-empty` (towards newer lines) and `resetIterator()` of the history store;
after `foo`, `bar`, `baz` were added, `next` gives `baz`, `bar`, `foo` and then nothing. -/
def ops : HistoryOps History where
  add text h := { h with lines := h.lines ++ [text] }
  next h :=
    if h.cursor < h.lines.length then
      (h.lines.reverse.getD h.cursor "", { h with cursor := h.cursor + 1 })
    else ("", h)
  prev h :=
    if 1 < h.cursor then
      (h.lines.reverse.getD (h.cursor - 2) "", { h with cursor := h.cursor - 1 })
    else ("", h)
  resetIterator h := { h with cursor := 0 }

end History

namespace Demo

/-- Two style files, the second one unreadable. -/
def themes : List ThemeFile :=
  [⟨"Bright", true, "QWidget \x7b color: black \x7d"⟩, ⟨"Dark", false, ""⟩]

/-- Surroundings with no persisted settings at all. -/
def env : Surroundings History :=
  ⟨[], themes, ⟨["foo", "bar", "baz"], 0⟩, ⟨10, 20⟩, ⟨960, 540⟩, 599⟩

/-- Surroundings in which `showCentered` is persisted as false and there is no persisted
window position. -/
def envNotCentered : Surroundings History :=
  ⟨[(CFG_CENTERED, .bool false)], themes, ⟨[], 0⟩, ⟨10, 20⟩, ⟨960, 540⟩, 599⟩

/-- The window constructed in `env` (the fresh window, should construction fail). -/
def constructed : MainWindow History :=
  match MainWindow.construct env with
  | .ok s => s
  | .error _ => MainWindow.fresh env

/-- The window constructed in `envNotCentered`. -/
def constructedNotCentered : MainWindow History :=
  match MainWindow.construct envNotCentered with
  | .ok s => s
  | .error _ => MainWindow.fresh envNotCentered

/-- The constructed window, shown, with input text `ba` and two proposals: the first with two
secondary actions and the second with none; the first one is current. -/
def shown : MainWindow History :=
  MainWindow.run History.ops constructed
    [.setVisible true, .userEdit "ba", .proposalsChanged [["Open", "Copy"], []] (some 0)]

/-- The window `shown` with the second proposal (no secondary actions) current. -/
def shownSecond : MainWindow History :=
  MainWindow.step History.ops shown (.proposalsChanged [["Open", "Copy"], []] (some 1))

/-- The window `shown` after its actions were asked for. -/
def shownActions : MainWindow History :=
  MainWindow.step History.ops shown (.setShowActions true)

end Demo

/-! ## The invariant of the two modes -/

namespace MainWindow

/-- The filter chain the input line has in each mode: the list of the mode first, the window
installed last. -/
def modeFilters (actionsShown : Bool) : List FilterObject :=
  if actionsShown then [.actionList, .mainWindow] else [.proposalList, .mainWindow]

/-- The invariant of the actions switch: the filter chain is the one of the mode, the action
list is shown exactly in the actions mode, and the proposal list is as the constructor left
it (hidden). -/
def ModeInv (s : MainWindow H) : Prop :=
  s.inputFilters = modeFilters s.actionsShown_ ∧
  s.actionListVisible = s.actionsShown_ ∧
  s.proposalListVisible = false

end MainWindow

end Albert

/-! ## Lemmas on the methods -/

namespace Albert

namespace MainWindow

variable {H : Type}

theorem sent_self (s : MainWindow H) : sent s s = [] := by
  simp [sent]

theorem sent_of_trace_eq (s t : MainWindow H) (l : List Effect) (h : t.trace = s.trace ++ l) :
    sent s t = l := by
  simp [sent, h]

theorem setShowActions_false_of_not_shown (s : MainWindow H) (h : s.actionsShown_ = false) :
    s.setShowActions false = s := by
  simp [setShowActions, setShowActions_hide, h]

/-- Hiding the actions touches the action list, the filter chain and the flag only. -/
theorem setShowActions_false_frame (s : MainWindow H) :
    (s.setShowActions false).actionsShown_ = false ∧
    (s.setShowActions false).visible = s.visible ∧
    (s.setShowActions false).inputText = s.inputText ∧
    (s.setShowActions false).inputAllSelected = s.inputAllSelected ∧
    (s.setShowActions false).history_ = s.history_ ∧
    (s.setShowActions false).clearOnHide_ = s.clearOnHide_ ∧
    (s.setShowActions false).hideOnClose_ = s.hideOnClose_ ∧
    (s.setShowActions false).proposalListVisible = s.proposalListVisible ∧
    (s.setShowActions false).pos = s.pos ∧
    (s.setShowActions false).currentIndex = s.currentIndex ∧
    (s.setShowActions false).trace = s.trace := by
  cases h : s.actionsShown_ <;>
    simp [setShowActions, setShowActions_hide, h, installEventFilter, removeEventFilter]

/-- What `setText` on the input line leaves behind. -/
theorem inputLine_setText_frame (s : MainWindow H) (t : String) :
    (s.inputLine_setText t).inputText = t ∧
    (s.inputLine_setText t).inputAllSelected = false ∧
    (s.inputLine_setText t).visible = s.visible ∧
    (s.inputLine_setText t).history_ = s.history_ ∧
    (s.inputLine_setText t).clearOnHide_ = s.clearOnHide_ ∧
    (s.inputLine_setText t).hideOnClose_ = s.hideOnClose_ ∧
    (s.inputLine_setText t).proposalListVisible = s.proposalListVisible ∧
    (s.inputLine_setText t).pos = s.pos ∧
    (s.inputLine_setText t).currentIndex = s.currentIndex ∧
    (s.inputLine_setText t).actionsShown_ =
      (if s.inputText = t then s.actionsShown_ else false) ∧
    (s.inputLine_setText t).trace =
      (if s.inputText = t then s.trace else s.trace ++ [.inputChanged t]) := by
  by_cases h : s.inputText = t <;>
    simp [inputLine_setText, h, textChanged, hideActions, emit, setShowActions_false_frame]

theorem setVisible_same (ops : HistoryOps H) (s : MainWindow H) (v : Bool)
    (h : s.visible = v) : s.setVisible ops v = s := by
  subst h
  cases hv : s.visible <;> simp [setVisible, hv]

/-- The transition to hidden, field by field. -/
theorem setVisible_hide (ops : HistoryOps H) (s : MainWindow H) (h : s.visible = true) :
    (s.setVisible ops false).visible = false ∧
    (s.setVisible ops false).actionsShown_ = false ∧
    (s.setVisible ops false).history_ = ops.resetIterator s.history_ ∧
    (s.setVisible ops false).inputText = (if s.clearOnHide_ then "" else s.inputText) ∧
    (s.setVisible ops false).inputAllSelected = !s.clearOnHide_ ∧
    (s.setVisible ops false).trace = s.trace ++ ([.historyResetIterator] ++
      (if s.clearOnHide_ = true ∧ s.inputText ≠ "" then [.inputChanged ""] else []) ++
      [.widgetHidden]) := by
  cases hc : s.clearOnHide_ <;> by_cases ht : s.inputText = "" <;>
    simp [setVisible, h, hc, ht, emit, history_resetIterator, inputLine_clear,
      inputLine_selectAll, setShowActions_false_frame, inputLine_setText_frame]

/-- The transition to visible sends four things, `widgetShown` last. -/
theorem setVisible_show_trace (ops : HistoryOps H) (s : MainWindow H)
    (h : s.visible = false) :
    (s.setVisible ops true).trace =
      s.trace ++ [.raise, .activateWindow, .inputSetFocus, .widgetShown] := by
  by_cases hc : s.showCentered_ <;> simp [setVisible, h, hc, emit, move]

theorem setVisible_visible (ops : HistoryOps H) (s : MainWindow H) (v : Bool) :
    (s.setVisible ops v).visible = v := by
  cases hv : s.visible <;> cases v
  · simp [setVisible_same, hv]
  · by_cases hc : s.showCentered_ <;> simp [setVisible, hv, hc, emit, move]
  · exact (setVisible_hide ops s hv).1
  · simp [setVisible_same, hv]

/-! ### The invariant is kept by every method -/

theorem modeInv_of_eq {s t : MainWindow H} (h : ModeInv s)
    (h₁ : t.inputFilters = s.inputFilters) (h₂ : t.actionsShown_ = s.actionsShown_)
    (h₃ : t.actionListVisible = s.actionListVisible)
    (h₄ : t.proposalListVisible = s.proposalListVisible) : ModeInv t := by
  unfold ModeInv at *
  rw [h₁, h₂, h₃, h₄]
  exact h

theorem setShowActions_same (s : MainWindow H) (b : Bool) (h : s.actionsShown_ = b) :
    s.setShowActions b = s := by
  subst h
  cases hs : s.actionsShown_ <;> simp [setShowActions, setShowActions_hide, hs]

theorem setShowActions_true_of_none (s : MainWindow H) (hc : s.currentIndex = none) :
    s.setShowActions true = s := by
  cases hs : s.actionsShown_ <;> simp [setShowActions, setShowActions_hide, hs, hc]

theorem setShowActions_true_of_empty (s : MainWindow H) (row : Nat)
    (hs : s.actionsShown_ = false) (hc : s.currentIndex = some row)
    (he : s.proposals.getD row [] = []) :
    s.setShowActions true = { s with actionsListModel_ := [] } := by
  simp only [List.getD_eq_getElem?_getD] at he
  simp [setShowActions, hs, hc, he]

theorem modeInv_setShowActions {s : MainWindow H} (h : ModeInv s) (b : Bool) :
    ModeInv (s.setShowActions b) := by
  by_cases hb : s.actionsShown_ = b
  · rw [setShowActions_same s b hb]; exact h
  · obtain ⟨hf, ha, hp⟩ := h
    cases hs : s.actionsShown_ <;> cases b <;> simp [hs] at hb
    · rw [hs] at hf ha
      cases hc : s.currentIndex with
      | none => rw [setShowActions_true_of_none s hc]; exact ⟨by rw [hs]; exact hf, by rw [hs]; exact ha, hp⟩
      | some row =>
        by_cases he : s.proposals.getD row [] = []
        · rw [setShowActions_true_of_empty s row hs hc he]
          exact ⟨by simpa [hs] using hf, by simpa [hs] using ha, hp⟩
        · simp only [List.getD_eq_getElem?_getD] at he
          simp [setShowActions, setShowActions_hide, hs, hc, he, ModeInv, installEventFilter,
            removeEventFilter, hf, hp, modeFilters]
    · rw [hs] at hf
      simp [setShowActions, setShowActions_hide, hs, ModeInv, installEventFilter,
        removeEventFilter, hf, hp, modeFilters]

theorem modeInv_emit {s : MainWindow H} (h : ModeInv s) (e : Effect) : ModeInv (s.emit e) :=
  modeInv_of_eq h rfl rfl rfl rfl

theorem modeInv_move {s : MainWindow H} (h : ModeInv s) (p : QPoint) : ModeInv (s.move p) :=
  modeInv_of_eq h rfl rfl rfl rfl

theorem modeInv_history_resetIterator (ops : HistoryOps H) {s : MainWindow H}
    (h : ModeInv s) : ModeInv (s.history_resetIterator ops) :=
  modeInv_of_eq h rfl rfl rfl rfl

theorem modeInv_history_add (ops : HistoryOps H) {s : MainWindow H} (h : ModeInv s)
    (t : String) : ModeInv (s.history_add ops t) :=
  modeInv_of_eq h rfl rfl rfl rfl

theorem modeInv_history_next (ops : HistoryOps H) {s : MainWindow H} (h : ModeInv s) :
    ModeInv (s.history_next ops).2 :=
  modeInv_of_eq h rfl rfl rfl rfl

theorem modeInv_history_prev (ops : HistoryOps H) {s : MainWindow H} (h : ModeInv s) :
    ModeInv (s.history_prev ops).2 :=
  modeInv_of_eq h rfl rfl rfl rfl

theorem modeInv_inputLine_selectAll {s : MainWindow H} (h : ModeInv s) :
    ModeInv s.inputLine_selectAll :=
  modeInv_of_eq h rfl rfl rfl rfl

theorem modeInv_textChanged {s : MainWindow H} (h : ModeInv s) : ModeInv s.textChanged :=
  modeInv_setShowActions (modeInv_emit h _) false

theorem modeInv_inputLine_setText {s : MainWindow H} (h : ModeInv s) (t : String) :
    ModeInv (s.inputLine_setText t) := by
  unfold inputLine_setText
  split_ifs
  · exact modeInv_of_eq h rfl rfl rfl rfl
  · exact modeInv_textChanged (modeInv_of_eq h rfl rfl rfl rfl)

theorem modeInv_inputLine_clear {s : MainWindow H} (h : ModeInv s) :
    ModeInv s.inputLine_clear :=
  modeInv_inputLine_setText h ""

theorem modeInv_setVisible (ops : HistoryOps H) {s : MainWindow H} (h : ModeInv s)
    (v : Bool) : ModeInv (s.setVisible ops v) := by
  have h0 : ModeInv ({ s with visible := v } : MainWindow H) :=
    modeInv_of_eq h rfl rfl rfl rfl
  simp only [setVisible]
  split_ifs
  · exact h
  · exact modeInv_emit (modeInv_emit (modeInv_emit (modeInv_emit (modeInv_move h0 _) _) _) _) _
  · exact modeInv_emit (modeInv_emit (modeInv_emit (modeInv_emit h0 _) _) _) _
  · exact modeInv_emit (modeInv_inputLine_clear
      (modeInv_history_resetIterator ops (modeInv_setShowActions h0 false))) _
  · exact modeInv_emit (modeInv_inputLine_selectAll
      (modeInv_history_resetIterator ops (modeInv_setShowActions h0 false))) _

theorem modeInv_eventFilter_tail (ops : HistoryOps H) {s : MainWindow H} (h : ModeInv s)
    (e : QEvent) : ModeInv (s.eventFilter_tail ops e).1 := by
  cases e <;> simp only [eventFilter_tail]
  · exact h
  · split_ifs
    · exact modeInv_inputLine_setText (modeInv_history_next ops h) _
    · exact modeInv_history_next ops h
    · exact modeInv_inputLine_setText (modeInv_history_prev ops h) _
    · exact modeInv_history_prev ops h
  · exact h

theorem modeInv_eventFilter_keyDown (ops : HistoryOps H) {s : MainWindow H} (h : ModeInv s)
    (e : QEvent) (m : Nat) : ModeInv (s.eventFilter_keyDown ops e m).1 := by
  simp only [eventFilter_keyDown]
  split_ifs
  · exact modeInv_inputLine_setText (modeInv_history_prev ops h) _
  · exact modeInv_history_prev ops h
  · exact modeInv_eventFilter_tail ops h e

theorem modeInv_eventFilter (ops : HistoryOps H) {s : MainWindow H} (h : ModeInv s)
    (e : QEvent) : ModeInv (s.eventFilter ops e).1 := by
  cases e with
  | keyPress key m r =>
    simp only [eventFilter]
    split_ifs
    · exact modeInv_setShowActions h _
    · exact modeInv_inputLine_setText (modeInv_history_next ops h) _
    · exact modeInv_history_next ops h
    · exact modeInv_eventFilter_keyDown ops h _ m
    · exact modeInv_eventFilter_keyDown ops h _ m
    · exact modeInv_eventFilter_tail ops h _
  | wheel d => exact modeInv_eventFilter_tail ops h _
  | other => exact modeInv_eventFilter_tail ops h _

theorem modeInv_step (ops : HistoryOps H) {s : MainWindow H} (h : ModeInv s) (op : Op) :
    ModeInv (s.step ops op) := by
  cases op with
  | setShowActions b => exact modeInv_setShowActions h b
  | setVisible b => exact modeInv_setVisible ops h b
  | eventFilter e => exact modeInv_eventFilter ops h e
  | proposalActivated index m =>
    exact modeInv_inputLine_clear
      (modeInv_setVisible ops (modeInv_history_add ops (modeInv_emit h _) _) false)
  | actionActivated row =>
    exact modeInv_setVisible ops (modeInv_emit (modeInv_history_add ops h _) _) false
  | close =>
    simp only [step, close, closeEvent]
    split_ifs <;>
      first
      | exact h
      | exact modeInv_emit h _
      | exact modeInv_setVisible ops h false
      | exact modeInv_setVisible ops (modeInv_emit h _) false
  | userEdit text =>
    simp only [step, inputLine_userEdit]
    split_ifs
    · exact h
    · exact modeInv_textChanged
        (modeInv_history_resetIterator ops (modeInv_of_eq h rfl rfl rfl rfl))
  | proposalsChanged p c => exact modeInv_of_eq h rfl rfl rfl rfl

theorem modeInv_run (ops : HistoryOps H) (l : List Op) :
    ∀ {s : MainWindow H}, ModeInv s → ModeInv (s.run ops l) := by
  induction l with
  | nil => intro s h; exact h
  | cons op l ih => intro s h; exact ih (modeInv_step ops h op)

end MainWindow

namespace QSettings

theorem lookup_filter_of_ne (s : QSettings) (key key' : String) (h : key ≠ key') :
    (s.filter (fun kv => kv.1 != key')).lookup key = s.lookup key := by
  induction s with
  | nil => rfl
  | cons kv s ih =>
    obtain ⟨k, w⟩ := kv
    by_cases hkk : k = key'
    · subst hkk
      have : (key == k) = false := by simpa using h
      simp [List.filter_cons, List.lookup_cons, this, ih]
    · by_cases hk2 : key = k
      · subst hk2
        simp [List.filter_cons, List.lookup_cons, hkk]
      · have : (key == k) = false := by simpa using hk2
        simp [List.filter_cons, List.lookup_cons, hkk, this, ih]

theorem lookup_setValue_of_ne (s : QSettings) (key key' : String) (v : QVariant)
    (h : key ≠ key') : (setValue s key' v).lookup key = s.lookup key := by
  unfold setValue
  have hk : (key == key') = false := by simpa using h
  rw [List.lookup_cons, hk]
  exact lookup_filter_of_ne s key key' h

end QSettings

namespace MainWindow

variable {H : Type}

/-- The search for the style file touches the persisted theme and the style sheet only. -/
theorem setTheme_find_frame (l : List ThemeFile) (s : MainWindow H) :
    (s.setTheme_find l).1.inputFilters = s.inputFilters ∧
    (s.setTheme_find l).1.actionsShown_ = s.actionsShown_ ∧
    (s.setTheme_find l).1.actionListVisible = s.actionListVisible ∧
    (s.setTheme_find l).1.proposalListVisible = s.proposalListVisible ∧
    (s.setTheme_find l).1.visible = s.visible ∧
    (s.setTheme_find l).1.pos = s.pos ∧
    (s.setTheme_find l).1.showCentered_ = s.showCentered_ ∧
    (s.setTheme_find l).1.screenCenter = s.screenCenter ∧
    (s.setTheme_find l).1.rectRight = s.rectRight ∧
    (s.setTheme_find l).1.theme_ = s.theme_ := by
  induction l with
  | nil => simp [setTheme_find]
  | cons fi rest ih =>
    simp only [setTheme_find]
    split_ifs
    · simp
    · exact ih
    · exact ih

/-! ### The constructor -/

theorem construct_ui_fields (env : Surroundings H) :
    (construct_ui env).inputFilters = [.proposalList, .mainWindow] ∧
    (construct_ui env).actionsShown_ = false ∧
    (construct_ui env).actionListVisible = false ∧
    (construct_ui env).proposalListVisible = false ∧
    (construct_ui env).visible = false ∧
    (construct_ui env).pos = env.pos ∧
    (construct_ui env).screenCenter = env.screenCenter ∧
    (construct_ui env).rectRight = env.rectRight ∧
    (construct_ui env).settings = env.settings := by
  simp [construct_ui, installEventFilter, fresh]

/-- The setters of the constructor keep the widgets as they are; the centring option is the
persisted one, and the window is moved to the persisted position only when it is not
centred and the position is there and is a point. -/
theorem construct_settings_fields (s : MainWindow H) :
    (construct_settings s).inputFilters = s.inputFilters ∧
    (construct_settings s).actionsShown_ = s.actionsShown_ ∧
    (construct_settings s).actionListVisible = s.actionListVisible ∧
    (construct_settings s).proposalListVisible = s.proposalListVisible ∧
    (construct_settings s).visible = s.visible ∧
    (construct_settings s).screenCenter = s.screenCenter ∧
    (construct_settings s).rectRight = s.rectRight ∧
    (construct_settings s).showCentered_ =
      (s.settings.value CFG_CENTERED (.bool DEF_CENTERED)).toBool ∧
    (construct_settings s).pos =
      (if (s.settings.value CFG_CENTERED (.bool DEF_CENTERED)).toBool = false
          ∧ s.settings.contains CFG_WND_POS = true
          ∧ (s.settings.value CFG_WND_POS (.bool false)).canConvertQPoint = true
        then (s.settings.value CFG_WND_POS (.bool false)).toPoint else s.pos) := by
  have hpos : ∀ v, (s.settings.setValue CFG_CENTERED v).lookup CFG_WND_POS
      = s.settings.lookup CFG_WND_POS :=
    fun v => QSettings.lookup_setValue_of_ne _ _ _ v (by decide)
  simp only [construct_settings, setDisplayShadow, setDisplayIcons, setDisplayScrollbar,
    setMaxProposals, setAlwaysOnTop, setClearOnHide, setHideOnClose, setHideOnFocusLoss,
    setShowCentered, showCentered, move, QSettings.contains, QSettings.value, hpos]
  split_ifs <;> simp_all

/-- The window the constructor returns, as far as the statements below need it. -/
theorem construct_ok (env : Surroundings H) (s : MainWindow H) (h : construct env = .ok s) :
    s.inputFilters = [.proposalList, .mainWindow] ∧
    s.actionsShown_ = false ∧
    s.actionListVisible = false ∧
    s.proposalListVisible = false ∧
    s.visible = false ∧
    s.screenCenter = env.screenCenter ∧
    s.rectRight = env.rectRight ∧
    s.showCentered_ = (env.settings.value CFG_CENTERED (.bool DEF_CENTERED)).toBool ∧
    s.pos =
      (if (env.settings.value CFG_CENTERED (.bool DEF_CENTERED)).toBool = false
          ∧ env.settings.contains CFG_WND_POS = true
          ∧ (env.settings.value CFG_WND_POS (.bool false)).canConvertQPoint = true
        then (env.settings.value CFG_WND_POS (.bool false)).toPoint else env.pos) := by
  simp only [construct] at h
  obtain ⟨u1, u2, u3, u4, u5, u6, u7, u8, u9⟩ := construct_ui_fields env
  obtain ⟨c1, c2, c3, c4, c5, c6, c7, c8, c9⟩ := construct_settings_fields (construct_ui env)
  generalize construct_settings (construct_ui env) = t at *
  by_cases hr : (setTheme { t with theme_ := (t.settings.value CFG_THEME
      (.string DEF_THEME)).toQString } (t.settings.value CFG_THEME
      (.string DEF_THEME)).toQString).2 = true
  · simp only [hr, Bool.not_true, Bool.false_eq_true, if_false, Except.ok.injEq] at h
    subst h
    simp only [setTheme, setTheme_find_frame]
    simp [*]
  · simp [hr] at h

/-! ## The statements of the specification -/

/-- C1: when the window's visibility already equals `v`, `setVisible(v)` returns the very same
state (so the actions flag, the filter chain, the input text and the history are unchanged)
and sends nothing (no `widgetShown`, no `widgetHidden`); hence a second identical request
after any first one changes nothing, and showing a hidden window twice emits `widgetShown`
exactly once. -/
theorem setVisible_noop_when_already (ops : HistoryOps H) (s : MainWindow H) (v : Bool)
    (h : s.visible = v) :
    s.setVisible ops v = s ∧
    sent s (s.setVisible ops v) = [] ∧
    (∀ t : MainWindow H, (t.setVisible ops v).setVisible ops v = t.setVisible ops v) ∧
    (∀ t : MainWindow H, t.visible = false →
      (sent t ((t.setVisible ops true).setVisible ops true)).count .widgetShown = 1) := by
  refine ⟨setVisible_same ops s v h, ?_, fun t => ?_, fun t ht => ?_⟩
  · rw [setVisible_same ops s v h]; exact sent_self s
  · exact setVisible_same ops _ v (setVisible_visible ops t v)
  · rw [setVisible_same ops _ true (setVisible_visible ops t true),
      sent_of_trace_eq t _ _ (setVisible_show_trace ops t ht)]
    decide

/-- C1 at a shown window: showing it again changes and sends nothing. -/
theorem setVisible_noop_when_already_witness :
    Demo.shown.visible = true ∧
    Demo.shown.setVisible History.ops true = Demo.shown ∧
    sent Demo.shown (Demo.shown.setVisible History.ops true) = [] ∧
    (∀ t : MainWindow History,
      (t.setVisible History.ops true).setVisible History.ops true
        = t.setVisible History.ops true) ∧
    (∀ t : MainWindow History, t.visible = false →
      (sent t ((t.setVisible History.ops true).setVisible History.ops true)).count
        .widgetShown = 1) :=
  ⟨by decide, setVisible_noop_when_already History.ops Demo.shown true (by decide)⟩

/-- C2: from a visible window, `setVisible(false)` ends with the window hidden, the actions
flag false and the history cursor reset; it calls `resetIterator` once and emits
`widgetHidden` once, as the last thing it does; the input text is empty when `clearOnHide_`
is set, and otherwise the text of before, wholly selected. -/
theorem setVisible_false_from_visible (ops : HistoryOps H) (s : MainWindow H)
    (h : s.visible = true) :
    (s.setVisible ops false).visible = false ∧
    (s.setVisible ops false).actionsShown_ = false ∧
    (s.setVisible ops false).history_ = ops.resetIterator s.history_ ∧
    (sent s (s.setVisible ops false)).count .historyResetIterator = 1 ∧
    (sent s (s.setVisible ops false)).count .widgetHidden = 1 ∧
    (sent s (s.setVisible ops false)).getLast? = some .widgetHidden ∧
    (s.clearOnHide_ = true → (s.setVisible ops false).inputText = "") ∧
    (s.clearOnHide_ = false → (s.setVisible ops false).inputText = s.inputText ∧
      (s.setVisible ops false).inputAllSelected = true) := by
  obtain ⟨h1, h2, h3, h4, h5, h6⟩ := setVisible_hide ops s h
  rw [sent_of_trace_eq s _ _ h6]
  refine ⟨h1, h2, h3, ?_, ?_, ?_, ?_, ?_⟩
  · split_ifs <;> simp [List.count_cons]
  · split_ifs <;> simp [List.count_cons]
  · split_ifs <;> simp
  · intro hc; simp [h4, hc]
  · intro hc; simp [h4, h5, hc]

/-- C2 at a shown window in the actions mode: hiding it leaves the actions mode. -/
theorem setVisible_false_from_visible_witness :
    Demo.shownActions.visible = true ∧ Demo.shownActions.actionsShown_ = true ∧
    (Demo.shownActions.setVisible History.ops false).visible = false ∧
    (Demo.shownActions.setVisible History.ops false).actionsShown_ = false :=
  ⟨by decide, by decide,
    (setVisible_false_from_visible History.ops Demo.shownActions (by decide)).1,
    (setVisible_false_from_visible History.ops Demo.shownActions (by decide)).2.1⟩

/-- Every reachable window satisfies the invariant of the two modes. -/
theorem reachable_modeInv (ops : HistoryOps H) (s : MainWindow H) (h : Reachable ops s) :
    ModeInv s := by
  obtain ⟨env, s₀, l, hc, rfl⟩ := h
  obtain ⟨h1, h2, h3, h4, -⟩ := construct_ok env s₀ hc
  exact modeInv_run ops l ⟨by rw [h1, h2]; rfl, by rw [h3, h2], h4⟩

/-- The freshly constructed window is reachable. -/
theorem reachable_constructed : Reachable History.ops Demo.constructed :=
  ⟨Demo.env, Demo.constructed, [], rfl, rfl⟩

/-- The window `Demo.shownActions` is reachable. -/
theorem reachable_shownActions : Reachable History.ops Demo.shownActions :=
  ⟨Demo.env, Demo.constructed,
    [.setVisible true, .userEdit "ba", .proposalsChanged [["Open", "Copy"], []] (some 0),
      .setShowActions true], rfl, rfl⟩

/-- C3: with the actions flag false, `setShowActions(true)` is refused when the proposal list
has no valid current index or the current proposal has no secondary actions: the flag stays
false, the action list keeps its visibility (hidden stays hidden), the filter chain of the
input line is the one of before and nothing is sent out (no error either); the result
differs from the state of before at most in the strings of the action list's model. -/
theorem setShowActions_true_refused (s : MainWindow H) (hs : s.actionsShown_ = false)
    (hno : s.currentIndex = none ∨
      ∃ row, s.currentIndex = some row ∧ s.proposals.getD row [] = []) :
    (s.setShowActions true).actionsShown_ = false ∧
    (s.setShowActions true).actionListVisible = s.actionListVisible ∧
    (s.setShowActions true).inputFilters = s.inputFilters ∧
    (s.setShowActions true).trace = s.trace ∧
    s.setShowActions true =
      { s with actionsListModel_ := (s.setShowActions true).actionsListModel_ } := by
  rcases hno with hc | ⟨row, hc, he⟩
  · rw [setShowActions_true_of_none s hc]; exact ⟨hs, rfl, rfl, rfl, rfl⟩
  · rw [setShowActions_true_of_empty s row hs hc he]; exact ⟨hs, rfl, rfl, rfl, rfl⟩

/-- C3 at a window whose current proposal has no secondary actions. -/
theorem setShowActions_true_refused_witness :
    Demo.shownSecond.actionsShown_ = false ∧
    Demo.shownSecond.currentIndex = some 1 ∧
    Demo.shownSecond.proposals.getD 1 [] = [] ∧
    (Demo.shownSecond.setShowActions true).actionsShown_ = false ∧
    (Demo.shownSecond.setShowActions true).actionListVisible
      = Demo.shownSecond.actionListVisible ∧
    (Demo.shownSecond.setShowActions true).inputFilters = Demo.shownSecond.inputFilters ∧
    (Demo.shownSecond.setShowActions true).trace = Demo.shownSecond.trace ∧
    Demo.shownSecond.setShowActions true =
      { Demo.shownSecond with
        actionsListModel_ := (Demo.shownSecond.setShowActions true).actionsListModel_ } :=
  ⟨by decide, by decide, by decide,
    setShowActions_true_refused Demo.shownSecond (by decide)
      (Or.inr ⟨1, by decide, by decide⟩)⟩

/-- C4: in every state reached from construction by `setShowActions`, `setVisible` and events
passed to `eventFilter` (Tab among them; also by activations, close requests, edits of the
text and changes of the proposals), the window is the last installed filter of the input
line, and the chain is `[proposal list, window]` when the actions flag is false and
`[action list, window]` when it is true. -/
theorem filter_chain_of_reachable (ops : HistoryOps H) (s : MainWindow H)
    (h : Reachable ops s) :
    s.inputFilters.getLast? = some .mainWindow ∧
    (s.actionsShown_ = false → s.inputFilters = [.proposalList, .mainWindow]) ∧
    (s.actionsShown_ = true → s.inputFilters = [.actionList, .mainWindow]) := by
  obtain ⟨hf, -, -⟩ := reachable_modeInv ops s h
  rw [hf]
  cases s.actionsShown_ <;> simp [modeFilters]

/-- C4 at a reachable window in the actions mode. -/
theorem filter_chain_of_reachable_witness :
    Reachable History.ops Demo.shownActions ∧
    Demo.shownActions.actionsShown_ = true ∧
    Demo.shownActions.inputFilters.getLast? = some .mainWindow ∧
    (Demo.shownActions.actionsShown_ = false →
      Demo.shownActions.inputFilters = [.proposalList, .mainWindow]) ∧
    (Demo.shownActions.actionsShown_ = true →
      Demo.shownActions.inputFilters = [.actionList, .mainWindow]) :=
  ⟨reachable_shownActions, by decide,
    filter_chain_of_reachable History.ops Demo.shownActions reachable_shownActions⟩

/-- C5 (counterexample): the freshly constructed window is a reachable state in which the
proposal list and the action list are both hidden, so it is not true that exactly one of
them is visible. -/
theorem both_lists_hidden_when_constructed :
    Reachable History.ops Demo.constructed ∧
    Demo.constructed.proposalListVisible = false ∧
    Demo.constructed.actionListVisible = false ∧
    ¬ (Demo.constructed.proposalListVisible ≠ Demo.constructed.actionListVisible) :=
  ⟨reachable_constructed, by decide, by decide, by decide⟩

/-- C5 (amended): in every state reached from construction by `setShowActions`, `setVisible`
and events passed to `eventFilter` (also by activations, close requests, edits of the text
and changes of the proposals), the action list is visible exactly when the actions flag is
true, the proposal list is as the constructor left it (hidden: none of these operations
shows it), and so the two lists are never both visible; both are hidden whenever the
actions flag is false. -/
theorem list_visibility_of_reachable (ops : HistoryOps H) (s : MainWindow H)
    (h : Reachable ops s) :
    s.actionListVisible = s.actionsShown_ ∧
    s.proposalListVisible = false ∧
    ¬ (s.proposalListVisible = true ∧ s.actionListVisible = true) ∧
    (s.actionsShown_ = false → s.proposalListVisible = false ∧ s.actionListVisible = false) := by
  obtain ⟨-, ha, hp⟩ := reachable_modeInv ops s h
  refine ⟨ha, hp, ?_, ?_⟩
  · simp [hp]
  · intro hs; exact ⟨hp, by rw [ha, hs]⟩

/-- C5 (amended) at a reachable window in the actions mode. -/
theorem list_visibility_of_reachable_witness :
    Reachable History.ops Demo.shownActions ∧
    Demo.shownActions.actionListVisible = true ∧
    Demo.shownActions.actionListVisible = Demo.shownActions.actionsShown_ ∧
    Demo.shownActions.proposalListVisible = false ∧
    ¬ (Demo.shownActions.proposalListVisible = true ∧
      Demo.shownActions.actionListVisible = true) ∧
    (Demo.shownActions.actionsShown_ = false →
      Demo.shownActions.proposalListVisible = false ∧
      Demo.shownActions.actionListVisible = false) :=
  ⟨reachable_shownActions, by decide,
    list_visibility_of_reachable History.ops Demo.shownActions reachable_shownActions⟩

/-- What `setVisible` adds to the trace comes after what was there. -/
theorem setVisible_trace (ops : HistoryOps H) (s : MainWindow H) (v : Bool) :
    ∃ l, (s.setVisible ops v).trace = s.trace ++ l ∧ Effect.quit ∉ l := by
  cases hv : s.visible <;> cases v
  · exact ⟨[], by simp [setVisible_same, hv], by simp⟩
  · refine ⟨[.raise, .activateWindow, .inputSetFocus, .widgetShown], ?_, by simp⟩
    by_cases hc : s.showCentered_ <;> simp [setVisible, hv, hc, emit, move]
  · refine ⟨_, (setVisible_hide ops s hv).2.2.2.2.2, ?_⟩
    split_ifs <;> simp
  · exact ⟨[], by simp [setVisible_same, hv], by simp⟩

theorem setVisible_false_history (ops : HistoryOps H) (s : MainWindow H) :
    (s.setVisible ops false).history_ =
      (if s.visible then ops.resetIterator s.history_ else s.history_) := by
  cases hv : s.visible
  · simp [setVisible_same, hv]
  · simp [(setVisible_hide ops s hv).2.2.1]

/-- C6: on activation of a proposal the role written on the model depends on the modifier
state alone: no modifier gives the default action (offset 0 from `UserRole+100`), Alt, Meta,
Control and Shift held alone give `UserRole+101`, `+102`, `+103`, `+104` (the five roles are
pairwise different), and every other modifier state gives the default role. In all cases the
handler then adds the input text to the history, and ends with the window hidden and the
input line empty. -/
theorem proposalList_activated_action (ops : HistoryOps H) (s : MainWindow H)
    (index : Option Nat) (modifiers : Nat) :
    activatedRole Qt.NoModifier = Qt.UserRole + 100 + 0 ∧
    activatedRole Qt.AltModifier = Qt.UserRole + 100 + 1 ∧
    activatedRole Qt.MetaModifier = Qt.UserRole + 100 + 2 ∧
    activatedRole Qt.ControlModifier = Qt.UserRole + 100 + 3 ∧
    activatedRole Qt.ShiftModifier = Qt.UserRole + 100 + 4 ∧
    (modifiers ∉ [Qt.AltModifier, Qt.MetaModifier, Qt.ControlModifier, Qt.ShiftModifier] →
      activatedRole modifiers = Qt.UserRole + 100) ∧
    (sent s (s.proposalList_activated ops index modifiers)).take 2 =
      [.setData index (-1) (activatedRole modifiers), .historyAdd s.inputText] ∧
    (s.proposalList_activated ops index modifiers).history_ =
      (if s.visible then ops.resetIterator (ops.add s.inputText s.history_)
        else ops.add s.inputText s.history_) ∧
    (s.proposalList_activated ops index modifiers).visible = false ∧
    (s.proposalList_activated ops index modifiers).inputText = "" := by
  refine ⟨by decide, by decide, by decide, by decide, by decide, ?_, ?_, ?_, ?_, ?_⟩
  · intro hm
    simp only [List.mem_cons, List.mem_singleton, List.not_mem_nil, or_false, not_or] at hm
    simp [activatedRole, hm.1, hm.2.1, hm.2.2.1, hm.2.2.2]
  · obtain ⟨l, hl, -⟩ := setVisible_trace ops
      ((s.emit (.setData index (-1) (activatedRole modifiers))).history_add ops
        (s.emit (.setData index (-1) (activatedRole modifiers))).inputText) false
    simp only [proposalList_activated, inputLine_clear, sent]
    rw [(inputLine_setText_frame _ _).2.2.2.2.2.2.2.2.2.2, hl]
    split_ifs <;> simp [history_add, emit]
  · simp only [proposalList_activated, inputLine_clear]
    rw [(inputLine_setText_frame _ _).2.2.2.1, setVisible_false_history]
    simp [history_add, emit]
  · simp only [proposalList_activated, inputLine_clear]
    rw [(inputLine_setText_frame _ _).2.2.1, setVisible_visible]
  · simp only [proposalList_activated, inputLine_clear]
    exact (inputLine_setText_frame _ _).1

/-- C6 at Control and Shift held together: the default role is written. -/
theorem proposalList_activated_action_witness :
    Qt.ControlModifier + Qt.ShiftModifier ∉
      [Qt.AltModifier, Qt.MetaModifier, Qt.ControlModifier, Qt.ShiftModifier] ∧
    activatedRole (Qt.ControlModifier + Qt.ShiftModifier) = Qt.UserRole + 100 :=
  ⟨by decide,
    (proposalList_activated_action History.ops Demo.shown (some 0)
      (Qt.ControlModifier + Qt.ShiftModifier)).2.2.2.2.2.1 (by decide)⟩

/-- A theme name without a readable style file: the search finds nothing and changes
nothing. -/
theorem setTheme_find_not_found (l : List ThemeFile) (s : MainWindow H)
    (h : ∀ fi ∈ l, ¬ (fi.baseName = s.theme_ ∧ fi.readable = true)) :
    s.setTheme_find l = (s, false) := by
  induction l with
  | nil => rfl
  | cons fi rest ih =>
    have h1 := h fi (List.mem_cons_self _ _)
    have h2 := ih (fun fi hfi => h fi (List.mem_cons_of_mem _ hfi))
    simp only [setTheme_find]
    split_ifs with hb hr
    · exact absurd ⟨hb, hr⟩ h1
    · exact h2
    · exact h2

/-- A theme name without a readable style file: `setTheme` returns false, and of the whole
window only `theme_` is different afterwards, which is the name that was asked for. -/
theorem setTheme_not_found (s : MainWindow H) (name : String)
    (h : ∀ fi ∈ s.themes, ¬ (fi.baseName = name ∧ fi.readable = true)) :
    s.setTheme name = ({ s with theme_ := name }, false) := by
  simp only [setTheme]
  exact setTheme_find_not_found _ _ h

/-- C7 (the code at the failing input): in a window whose theme is `Bright`, with style files
`Bright` (readable) and `Dark` (unreadable), `setTheme` of the unknown name `Nope` returns
false and leaves the style sheet and the persisted settings alone, but `theme()` reports
`Nope` afterwards; the same for the unreadable `Dark`. -/
theorem setTheme_failure_changes_theme_name :
    (∀ fi ∈ Demo.shown.themes, ¬ (fi.baseName = "Nope" ∧ fi.readable = true)) ∧
    Demo.shown.theme = "Bright" ∧
    (Demo.shown.setTheme "Nope").2 = false ∧
    (Demo.shown.setTheme "Nope").1.styleSheet = Demo.shown.styleSheet ∧
    (Demo.shown.setTheme "Nope").1.settings = Demo.shown.settings ∧
    (Demo.shown.setTheme "Nope").1.settings.value CFG_THEME (.string DEF_THEME)
      = .string "Bright" ∧
    (Demo.shown.setTheme "Nope").1.theme = "Nope" ∧
    (Demo.shown.setTheme "Dark").2 = false ∧
    (Demo.shown.setTheme "Dark").1.theme = "Dark" := by
  refine ⟨by decide, by decide, by decide, by decide, by decide, by decide, by decide,
    by decide, by decide⟩

/-- C8: the close event is always accepted and the window always closes. With `hideOnClose_`
false the handler asks the application to quit (that is all it sends); with `hideOnClose_`
true the handler changes nothing and sends nothing, no quit is asked for during the whole
close, and the window is hidden afterwards. -/
theorem closeEvent_accepts (ops : HistoryOps H) (s : MainWindow H) :
    s.closeEvent.2 = true ∧
    (s.close ops).2 = true ∧
    (s.hideOnClose_ = false →
      sent s s.closeEvent.1 = [.quit] ∧ Effect.quit ∈ sent s (s.close ops).1) ∧
    (s.hideOnClose_ = true →
      s.closeEvent.1 = s ∧ Effect.quit ∉ sent s (s.close ops).1 ∧
      (s.close ops).1.visible = false) := by
  refine ⟨rfl, ?_, ?_, ?_⟩
  · simp only [close, closeEvent]
    split_ifs <;> simp_all
  · intro hc
    refine ⟨by simp [closeEvent, hc, sent, emit], ?_⟩
    cases hv : s.visible
    · simp [close, closeEvent, hc, hv, sent, emit]
    · obtain ⟨l, hl, -⟩ := setVisible_trace ops (s.emit .quit) false
      have : (s.close ops).1 = (s.emit .quit).setVisible ops false := by
        simp [close, closeEvent, hc, hv, emit]
      rw [this, sent, hl]
      simp [emit]
  · intro hc
    refine ⟨by simp [closeEvent, hc], ?_⟩
    cases hv : s.visible
    · simp [close, closeEvent, hc, hv, sent]
    · obtain ⟨l, hl, hq⟩ := setVisible_trace ops s false
      have : (s.close ops).1 = s.setVisible ops false := by
        simp [close, closeEvent, hc, hv]
      rw [this, sent, hl]
      exact ⟨by simpa using hq, setVisible_visible ops s false⟩

/-- C8 at a visible window with `hideOnClose_` false: the close asks for the quit. -/
theorem closeEvent_accepts_witness :
    Demo.shown.hideOnClose_ = false ∧
    sent Demo.shown Demo.shown.closeEvent.1 = [.quit] ∧
    Effect.quit ∈ sent Demo.shown (Demo.shown.close History.ops).1 :=
  ⟨by decide, (closeEvent_accepts History.ops Demo.shown).2.2.1 (by decide)⟩

/-- C9 (counterexample): with `showCentered` persisted as false and no persisted window
position, construction succeeds and the window, when shown, stays at the position the
toolkit gave it, `(10, 20)`, which is not the centred position `(661, 348)`. -/
theorem not_centered_without_position :
    construct Demo.envNotCentered = .ok Demo.constructedNotCentered ∧
    Demo.envNotCentered.settings.contains CFG_WND_POS = false ∧
    (Demo.constructedNotCentered.setVisible History.ops true).visible = true ∧
    (Demo.constructedNotCentered.setVisible History.ops true).pos = ⟨10, 20⟩ ∧
    (Demo.constructedNotCentered.setVisible History.ops true).centeredPos = ⟨661, 348⟩ ∧
    (Demo.constructedNotCentered.setVisible History.ops true).pos ≠
      (Demo.constructedNotCentered.setVisible History.ops true).centeredPos :=
  ⟨rfl, by decide, by decide, by decide, by decide, by decide⟩

/-- C9 (amended): when the persisted window position is absent or is no point, the
constructor does not move the window, and the centring option is the persisted `showCentered`
(true when absent); the window is then placed at the screen centre when shown if that
option is true, and is left where it is if that option is false. -/
theorem construct_without_position (ops : HistoryOps H) (env : Surroundings H)
    (s : MainWindow H) (h : construct env = .ok s)
    (hpos : env.settings.contains CFG_WND_POS = false ∨
      (env.settings.value CFG_WND_POS (.bool false)).canConvertQPoint = false) :
    s.showCentered_ = (env.settings.value CFG_CENTERED (.bool DEF_CENTERED)).toBool ∧
    s.pos = env.pos ∧
    s.visible = false ∧
    (s.showCentered_ = true →
      (s.setVisible ops true).pos =
        ⟨env.screenCenter.x - Int.tdiv env.rectRight 2, env.screenCenter.y - 192⟩) ∧
    (s.showCentered_ = false → (s.setVisible ops true).pos = env.pos) := by
  obtain ⟨-, -, -, -, hv, hsc, hrr, hce, hp⟩ := construct_ok env s h
  have hp' : s.pos = env.pos := by
    rw [hp]
    rcases hpos with h1 | h1 <;> simp [h1]
  refine ⟨hce, hp', hv, ?_, ?_⟩
  · intro hc
    simp [setVisible, hv, hc, emit, move, centeredPos, hsc, hrr]
  · intro hc
    simp [setVisible, hv, hc, emit, hp']

/-- C9 (amended) at surroundings without any persisted setting: the window is centred when
shown. -/
theorem construct_without_position_witness :
    construct Demo.env = .ok Demo.constructed ∧
    Demo.env.settings.contains CFG_WND_POS = false ∧
    Demo.constructed.showCentered_ = true ∧
    (Demo.constructed.setVisible History.ops true).pos = ⟨661, 348⟩ :=
  ⟨rfl, by decide, by decide,
    (construct_without_position History.ops Demo.env Demo.constructed rfl
      (Or.inl (by decide))).2.2.2.1 (by decide)⟩

/-- C10: for an Up key press, `eventFilter` returns true exactly when the proposal list has
no valid current index, or the modifier state is Control, or the actions flag is false and
the current row is 0 and the press is no auto-repeat. In that case it calls `next()` once
(and nothing else on the history) and sets the input text to the returned line when that
line is not empty, leaving the text alone when it is empty. Otherwise it returns false and
the state is the one of before: the fall-through into the Down case calls neither `next()`
nor `prev()`. -/
theorem eventFilter_keyUp (ops : HistoryOps H) (s : MainWindow H) (modifiers : Nat)
    (isAutoRepeat : Bool) :
    ((s.eventFilter ops (.keyPress Qt.Key_Up modifiers isAutoRepeat)).2 = true ↔
      (s.currentIndex = none ∨ modifiers = Qt.ControlModifier ∨
        (s.actionsShown_ = false ∧ s.currentIndex = some 0 ∧ isAutoRepeat = false))) ∧
    ((s.eventFilter ops (.keyPress Qt.Key_Up modifiers isAutoRepeat)).2 = true →
      (s.eventFilter ops (.keyPress Qt.Key_Up modifiers isAutoRepeat)).1.history_
        = (ops.next s.history_).2 ∧
      (s.eventFilter ops (.keyPress Qt.Key_Up modifiers isAutoRepeat)).1.inputText
        = (if (ops.next s.history_).1 ≠ "" then (ops.next s.history_).1 else s.inputText) ∧
      sent s (s.eventFilter ops (.keyPress Qt.Key_Up modifiers isAutoRepeat)).1
        = .historyNext ::
          (if (ops.next s.history_).1 ≠ "" ∧ (ops.next s.history_).1 ≠ s.inputText
            then [.inputChanged (ops.next s.history_).1] else [])) ∧
    ((s.eventFilter ops (.keyPress Qt.Key_Up modifiers isAutoRepeat)).2 = false →
      (s.eventFilter ops (.keyPress Qt.Key_Up modifiers isAutoRepeat)).1 = s) := by
  have hk : Qt.Key_Up ≠ Qt.Key_Tab := by decide
  by_cases hcond : s.currentIndex = none ∨ modifiers = Qt.ControlModifier ∨
      (s.actionsShown_ = false ∧ s.currentIndex = some 0 ∧ isAutoRepeat = false)
  · have hif : (s.currentIndex.isNone || decide (modifiers = historyMoveMod_)
        || (!s.actionsAreShown && decide (s.currentRow = 0) && !isAutoRepeat)) = true := by
      rcases hcond with h | h | ⟨h1, h2, h3⟩
      · simp [h]
      · simp [h, historyMoveMod_]
      · simp [h1, h2, h3, actionsAreShown, currentRow]
    have he : s.eventFilter ops (.keyPress Qt.Key_Up modifiers isAutoRepeat) =
        ((if (s.history_next ops).1 ≠ "" then
            (s.history_next ops).2.inputLine_setText (s.history_next ops).1
          else (s.history_next ops).2), true) := by
      simp only [eventFilter, hk, if_false, if_true, hif]
    rw [he]
    refine ⟨by simp [hcond], fun _ => ?_, by simp⟩
    by_cases hn : (ops.next s.history_).1 = ""
    · simp [history_next, hn, sent, emit]
    · by_cases hs : s.inputText = (ops.next s.history_).1
      · simp [history_next, hn, sent, emit, inputLine_setText_frame, hs]
      · have hs' : ¬ (ops.next s.history_).1 = s.inputText := fun h => hs h.symm
        simp [history_next, hn, sent, emit, inputLine_setText_frame, hs, hs']
  · simp only [not_or] at hcond
    obtain ⟨h1, h2, h3⟩ := hcond
    have hif : (s.currentIndex.isNone || decide (modifiers = historyMoveMod_)
        || (!s.actionsAreShown && decide (s.currentRow = 0) && !isAutoRepeat)) = false := by
      cases hi : s.currentIndex with
      | none => exact absurd hi h1
      | some row =>
        cases hs : s.actionsShown_ <;> cases isAutoRepeat <;>
          simp_all [historyMoveMod_, actionsAreShown, currentRow]
    have he : s.eventFilter ops (.keyPress Qt.Key_Up modifiers isAutoRepeat) = (s, false) := by
      simp [eventFilter, hk, hif, eventFilter_keyDown, eventFilter_tail, h2]
    rw [he]
    refine ⟨?_, by simp, by simp⟩
    simp only [Bool.false_eq_true, false_iff, not_or]
    exact ⟨h1, h2, h3⟩

/-- C10 at a visible window whose current row is 0: a plain Up press is consumed, an Up press
with Shift on the second row is not. -/
theorem eventFilter_keyUp_witness :
    (Demo.shown.eventFilter History.ops (.keyPress Qt.Key_Up Qt.NoModifier false)).2 = true ∧
    (Demo.shown.eventFilter History.ops (.keyPress Qt.Key_Up Qt.NoModifier false)).1.inputText
      = "baz" ∧
    (Demo.shownSecond.eventFilter History.ops
      (.keyPress Qt.Key_Up Qt.ShiftModifier false)).1 = Demo.shownSecond :=
  ⟨(eventFilter_keyUp History.ops Demo.shown Qt.NoModifier false).1.mpr
      (Or.inr (Or.inr ⟨by decide, by decide, rfl⟩)),
    by decide,
    (eventFilter_keyUp History.ops Demo.shownSecond Qt.ShiftModifier false).2.2 (by decide)⟩

/-- What `next()` followed by the conditional `setText` leaves behind. -/
theorem history_next_setText (ops : HistoryOps H) (s : MainWindow H) :
    (if (s.history_next ops).1 ≠ "" then
        (s.history_next ops).2.inputLine_setText (s.history_next ops).1
      else (s.history_next ops).2).history_ = (ops.next s.history_).2 ∧
    (if (s.history_next ops).1 ≠ "" then
        (s.history_next ops).2.inputLine_setText (s.history_next ops).1
      else (s.history_next ops).2).inputText
      = (if (ops.next s.history_).1 ≠ "" then (ops.next s.history_).1 else s.inputText) ∧
    sent s (if (s.history_next ops).1 ≠ "" then
        (s.history_next ops).2.inputLine_setText (s.history_next ops).1
      else (s.history_next ops).2)
      = .historyNext ::
        (if (ops.next s.history_).1 ≠ "" ∧ (ops.next s.history_).1 ≠ s.inputText
          then [.inputChanged (ops.next s.history_).1] else []) := by
  by_cases hn : (ops.next s.history_).1 = ""
  · simp [history_next, hn, sent, emit]
  · by_cases hs : s.inputText = (ops.next s.history_).1
    · simp [history_next, hn, sent, emit, inputLine_setText_frame, hs]
    · have hs' : ¬ (ops.next s.history_).1 = s.inputText := fun h => hs h.symm
      simp [history_next, hn, sent, emit, inputLine_setText_frame, hs, hs']

/-- What `prev()` followed by the conditional `setText` leaves behind. -/
theorem history_prev_setText (ops : HistoryOps H) (s : MainWindow H) :
    (if (s.history_prev ops).1 ≠ "" then
        (s.history_prev ops).2.inputLine_setText (s.history_prev ops).1
      else (s.history_prev ops).2).history_ = (ops.prev s.history_).2 ∧
    (if (s.history_prev ops).1 ≠ "" then
        (s.history_prev ops).2.inputLine_setText (s.history_prev ops).1
      else (s.history_prev ops).2).inputText
      = (if (ops.prev s.history_).1 ≠ "" then (ops.prev s.history_).1 else s.inputText) ∧
    sent s (if (s.history_prev ops).1 ≠ "" then
        (s.history_prev ops).2.inputLine_setText (s.history_prev ops).1
      else (s.history_prev ops).2)
      = .historyPrev ::
        (if (ops.prev s.history_).1 ≠ "" ∧ (ops.prev s.history_).1 ≠ s.inputText
          then [.inputChanged (ops.prev s.history_).1] else []) := by
  by_cases hn : (ops.prev s.history_).1 = ""
  · simp [history_prev, hn, sent, emit]
  · by_cases hs : s.inputText = (ops.prev s.history_).1
    · simp [history_prev, hn, sent, emit, inputLine_setText_frame, hs]
    · have hs' : ¬ (ops.prev s.history_).1 = s.inputText := fun h => hs h.symm
      simp [history_prev, hn, sent, emit, inputLine_setText_frame, hs, hs']

/-- C11 (counterexample): a wheel-up event (vertical delta 120) on the shown window, in the
proposals mode and in the actions mode alike, moves the history with `next()` and puts the
returned line `baz` into the input line, but `eventFilter` returns false: the event is not
consumed. -/
theorem wheel_event_not_consumed :
    Demo.shown.actionsShown_ = false ∧
    (Demo.shown.eventFilter History.ops (.wheel 120)).2 = false ∧
    sent Demo.shown (Demo.shown.eventFilter History.ops (.wheel 120)).1
      = [.historyNext, .inputChanged "baz"] ∧
    (Demo.shown.eventFilter History.ops (.wheel 120)).1.inputText = "baz" ∧
    Demo.shownActions.actionsShown_ = true ∧
    (Demo.shownActions.eventFilter History.ops (.wheel 120)).2 = false ∧
    (Demo.shownActions.eventFilter History.ops (.wheel (-120))).2 = false := by
  refine ⟨by decide, by decide, by decide, by decide, by decide, by decide, by decide⟩

/-- C11 (amended): for every wheel event and every state, whatever the actions flag,
`eventFilter` returns false (the event is not consumed). With a positive vertical delta it
calls `next()` once, otherwise (negative or zero delta) it calls `prev()` once, and nothing
else on the history; the input text becomes the returned line when that line is not empty
and is left alone when it is empty. -/
theorem eventFilter_wheel (ops : HistoryOps H) (s : MainWindow H) (angleDeltaY : Int) :
    (s.eventFilter ops (.wheel angleDeltaY)).2 = false ∧
    (angleDeltaY > 0 →
      (s.eventFilter ops (.wheel angleDeltaY)).1.history_ = (ops.next s.history_).2 ∧
      (s.eventFilter ops (.wheel angleDeltaY)).1.inputText
        = (if (ops.next s.history_).1 ≠ "" then (ops.next s.history_).1 else s.inputText) ∧
      sent s (s.eventFilter ops (.wheel angleDeltaY)).1
        = .historyNext ::
          (if (ops.next s.history_).1 ≠ "" ∧ (ops.next s.history_).1 ≠ s.inputText
            then [.inputChanged (ops.next s.history_).1] else [])) ∧
    (¬ angleDeltaY > 0 →
      (s.eventFilter ops (.wheel angleDeltaY)).1.history_ = (ops.prev s.history_).2 ∧
      (s.eventFilter ops (.wheel angleDeltaY)).1.inputText
        = (if (ops.prev s.history_).1 ≠ "" then (ops.prev s.history_).1 else s.inputText) ∧
      sent s (s.eventFilter ops (.wheel angleDeltaY)).1
        = .historyPrev ::
          (if (ops.prev s.history_).1 ≠ "" ∧ (ops.prev s.history_).1 ≠ s.inputText
            then [.inputChanged (ops.prev s.history_).1] else [])) := by
  by_cases hd : angleDeltaY > 0
  · have he : s.eventFilter ops (.wheel angleDeltaY) =
        ((if (s.history_next ops).1 ≠ "" then
            (s.history_next ops).2.inputLine_setText (s.history_next ops).1
          else (s.history_next ops).2), false) := by
      simp only [eventFilter, eventFilter_tail, hd, if_true]
    rw [he]
    exact ⟨rfl, fun _ => history_next_setText ops s, fun h => absurd hd h⟩
  · have he : s.eventFilter ops (.wheel angleDeltaY) =
        ((if (s.history_prev ops).1 ≠ "" then
            (s.history_prev ops).2.inputLine_setText (s.history_prev ops).1
          else (s.history_prev ops).2), false) := by
      simp only [eventFilter, eventFilter_tail, hd, if_false]
    rw [he]
    exact ⟨rfl, fun h => absurd h hd, fun _ => history_prev_setText ops s⟩

/-- C11 (amended) at the shown window in the actions mode: wheel-up is not consumed and
calls `next()`. -/
theorem eventFilter_wheel_witness :
    (Demo.shownActions.eventFilter History.ops (.wheel 120)).2 = false ∧
    (Demo.shownActions.eventFilter History.ops (.wheel 120)).1.history_
      = (History.ops.next Demo.shownActions.history_).2 :=
  ⟨(eventFilter_wheel History.ops Demo.shownActions 120).1,
    ((eventFilter_wheel History.ops Demo.shownActions 120).2.1 (by decide)).1⟩

/-- C12: for a Down key press, `eventFilter` returns true exactly when the actions flag is
false and the modifier state is Control. In that case it calls `prev()` once (and nothing
else on the history) and sets the input text to the returned line when that line is not
empty, leaving the text alone when it is empty. Otherwise it returns false and the state is
the one of before: the history is not moved and the input text is unchanged. -/
theorem eventFilter_keyDown_spec (ops : HistoryOps H) (s : MainWindow H) (modifiers : Nat)
    (isAutoRepeat : Bool) :
    ((s.eventFilter ops (.keyPress Qt.Key_Down modifiers isAutoRepeat)).2 = true ↔
      (s.actionsShown_ = false ∧ modifiers = Qt.ControlModifier)) ∧
    ((s.eventFilter ops (.keyPress Qt.Key_Down modifiers isAutoRepeat)).2 = true →
      (s.eventFilter ops (.keyPress Qt.Key_Down modifiers isAutoRepeat)).1.history_
        = (ops.prev s.history_).2 ∧
      (s.eventFilter ops (.keyPress Qt.Key_Down modifiers isAutoRepeat)).1.inputText
        = (if (ops.prev s.history_).1 ≠ "" then (ops.prev s.history_).1 else s.inputText) ∧
      sent s (s.eventFilter ops (.keyPress Qt.Key_Down modifiers isAutoRepeat)).1
        = .historyPrev ::
          (if (ops.prev s.history_).1 ≠ "" ∧ (ops.prev s.history_).1 ≠ s.inputText
            then [.inputChanged (ops.prev s.history_).1] else [])) ∧
    ((s.eventFilter ops (.keyPress Qt.Key_Down modifiers isAutoRepeat)).2 = false →
      (s.eventFilter ops (.keyPress Qt.Key_Down modifiers isAutoRepeat)).1 = s) := by
  have hk1 : Qt.Key_Down ≠ Qt.Key_Tab := by decide
  have hk2 : Qt.Key_Down ≠ Qt.Key_Up := by decide
  by_cases hcond : s.actionsShown_ = false ∧ modifiers = Qt.ControlModifier
  · have he : s.eventFilter ops (.keyPress Qt.Key_Down modifiers isAutoRepeat) =
        ((if (s.history_prev ops).1 ≠ "" then
            (s.history_prev ops).2.inputLine_setText (s.history_prev ops).1
          else (s.history_prev ops).2), true) := by
      simp [eventFilter, eventFilter_keyDown, hk1, hk2, actionsAreShown, hcond.1, hcond.2]
    rw [he]
    exact ⟨by simp [hcond], fun _ => history_prev_setText ops s, by simp⟩
  · have he : s.eventFilter ops (.keyPress Qt.Key_Down modifiers isAutoRepeat) = (s, false) := by
      have hif : (!s.actionsAreShown && decide (modifiers = Qt.ControlModifier)) = false := by
        cases hs : s.actionsShown_ <;> simp_all [actionsAreShown]
      simp [eventFilter, eventFilter_keyDown, eventFilter_tail, hk1, hk2, hif]
    rw [he]
    exact ⟨by simp [hcond], by simp, by simp⟩

/-- C12 at the shown window: Control+Down in the proposals mode is consumed, Control+Down in
the actions mode is not and changes nothing. -/
theorem eventFilter_keyDown_spec_witness :
    (Demo.shown.eventFilter History.ops
      (.keyPress Qt.Key_Down Qt.ControlModifier false)).2 = true ∧
    (Demo.shownActions.eventFilter History.ops
      (.keyPress Qt.Key_Down Qt.ControlModifier false)).1 = Demo.shownActions :=
  ⟨(eventFilter_keyDown_spec History.ops Demo.shown Qt.ControlModifier false).1.mpr
      ⟨by decide, rfl⟩,
    (eventFilter_keyDown_spec History.ops Demo.shownActions Qt.ControlModifier false).2.2
      (by decide)⟩

end MainWindow

end Albert
